import Mathlib

/-!
Shallow embedding of the leave-management system (Flask web console `app.py`,
Telegram bot `bot.py`, monthly scheduler `scheduler.py`, ORM model `database.py`).

Conventions of the embedding:
* Calendar dates are proleptic Gregorian ordinals (`Nat`), exactly the value of
  Python's `date.toordinal()`; `date(2024, 1, 1).toordinal() = 738886`.
  Python's `date.weekday()` (Monday = 0 .. Sunday = 6) on an ordinal `n` is
  `(n + 6) % 7`.
* Times of day are minutes after midnight (`Nat`); both front-ends parse times
  with the minute-resolution format string, so this loses nothing.
* Float balances/quotas are modelled as rationals (`ℚ`); the arithmetic the
  code performs on them (add, subtract, compare) is exact on the values that
  occur, so `ℚ` is the faithful idealisation.
* Status fields are the `String` values the code stores and compares.
* ORM rows become structures; the primary-key id column is omitted because the
  embedded operations receive the looked-up row directly (an absent row is an
  `Option.none` argument).
-/

namespace LeaveBot

/-- Employee row of `database.py` (`employees` table).  Defaults as declared
there: balances 0.0, monthly quotas 2.0 / 4.0, status `pending`. -/
structure Employee where
  telegram_id : Nat
  full_name : String
  department : Option String
  is_manager : Bool
  status : String
  daily_leave_balance : ℚ
  hourly_leave_balance : ℚ
  monthly_daily_leave_quota : ℚ
  monthly_hourly_leave_quota : ℚ
deriving DecidableEq, Repr

/-- LeaveRequest row of `database.py` (`leave_requests` table). -/
structure LeaveRequest where
  employee_id : Nat
  leave_type : String
  start_date : Nat
  end_date : Nat
  start_time : Option Nat
  end_time : Option Nat
  reason : String
  status : String
  replacement_employee_id : Option Nat
  replacement_approval_status : String
  approved_by : Option String
deriving DecidableEq, Repr

/-- Python's `date.weekday()` for an ordinal: Monday = 0, ..., Friday = 4,
Saturday = 5, Sunday = 6. -/
def pyWeekday (d : Nat) : Nat := (d + 6) % 7

/-- The loop-body condition of `calculate_leave_days` in `app.py`:
`current_date.weekday() not in [4, 5] and current_date not in holidays`. -/
def isWorkingDay (holidays : Finset Nat) (d : Nat) : Bool :=
  !(pyWeekday d == 4 || pyWeekday d == 5) && !(decide (d ∈ holidays))

/-- The `while current_date <= end_date` loop of `calculate_leave_days`
(`app.py`), unrolled on the number of remaining iterations. -/
def countDaysFrom (holidays : Finset Nat) (start : Nat) : Nat → Nat
  | 0 => 0
  | n + 1 =>
      (if isWorkingDay holidays start then 1 else 0) + countDaysFrom holidays (start + 1) n

/-- `calculate_leave_days(start_date, end_date)` of `app.py`: the loop runs
once per date of the inclusive range, i.e. `end + 1 - start` times (zero times
when `end < start`). -/
def calculate_leave_days (holidays : Finset Nat) (start_date end_date : Nat) : Nat :=
  countDaysFrom holidays start_date (end_date + 1 - start_date)

/-- The loop-body condition of the duplicated day loop in `bot.py`
(`curr.weekday() not in [4, 5]`) — no holiday lookup there. -/
def botWorkday (d : Nat) : Bool :=
  !(pyWeekday d == 4 || pyWeekday d == 5)

/-- The inline day-count loop of `button_handler` (`bot.py`, `admin_approve_`
branch), unrolled on remaining iterations. -/
def botButtonDaysFrom (start : Nat) : Nat → Nat
  | 0 => 0
  | n + 1 => (if botWorkday start then 1 else 0) + botButtonDaysFrom (start + 1) n

/-- Day quantity computed by the bot's inline-approve site
(`button_handler` in `bot.py`). -/
def bot_button_days (start_date end_date : Nat) : Nat :=
  botButtonDaysFrom start_date (end_date + 1 - start_date)

/-- The inline day-count loop of `global_admin_handler` (`bot.py`,
`admin_approve_` branch), unrolled on remaining iterations. -/
def botGlobalDaysFrom (start : Nat) : Nat → Nat
  | 0 => 0
  | n + 1 => (if botWorkday start then 1 else 0) + botGlobalDaysFrom (start + 1) n

/-- Day quantity computed by the bot's global admin handler site
(`global_admin_handler` in `bot.py`). -/
def bot_global_days (start_date end_date : Nat) : Nat :=
  botGlobalDaysFrom start_date (end_date + 1 - start_date)

/-- `calculate_leave_hours(start_time, end_time)` of `app.py`: `0` when either
time is missing, otherwise the signed difference in seconds divided by 3600. -/
def calculate_leave_hours : Option Nat → Option Nat → ℚ
  | some s, some e => ((e : ℚ) - (s : ℚ)) * 60 / 3600
  | _, _ => 0

/-- Hour quantity computed inline at both bot approve sites
(`button_handler` and `global_admin_handler` in `bot.py`):
`datetime.combine` difference in seconds divided by 3600, times present. -/
def bot_hours (s e : Nat) : ℚ := ((e : ℚ) - (s : ℚ)) * 60 / 3600

/-- Outcome signalled by an approve call site. -/
inductive ApproveOutcome
  | alreadyProcessed
  | insufficientBalance
  | approved
  | errorRolledBack
deriving DecidableEq, Repr

/-- Post-state of an approve call site: the (possibly updated) employee row,
the (possibly updated) request row, and the signalled outcome. -/
structure ApproveResult where
  emp : Employee
  req : LeaveRequest
  outcome : ApproveOutcome
deriving DecidableEq, Repr

/-- `approve_request` in `app.py` (web console), restricted to the rows it
touches.  Guard: only `status != 'pending'` aborts (the missing-row case is the
same silent redirect).  The daily branch uses `calculate_leave_days` (holidays
excluded); the hourly branch uses `calculate_leave_hours`; a leave_type that is
neither string falls through to the status update with no deduction, exactly as
in the `if/elif` of the source. -/
def web_approve (holidays : Finset Nat) (emp : Employee) (req : LeaveRequest) :
    ApproveResult :=
  if req.status ≠ "pending" then ⟨emp, req, .alreadyProcessed⟩
  else if req.leave_type = "يومية" then
    let days : ℚ := (calculate_leave_days holidays req.start_date req.end_date : ℚ)
    if emp.daily_leave_balance < days then ⟨emp, req, .insufficientBalance⟩
    else
      ⟨{ emp with daily_leave_balance := emp.daily_leave_balance - days },
       { req with status := "approved", approved_by := some "Admin (Web)" }, .approved⟩
  else if req.leave_type = "بالساعة" then
    let hours := calculate_leave_hours req.start_time req.end_time
    if emp.hourly_leave_balance < hours then ⟨emp, req, .insufficientBalance⟩
    else
      ⟨{ emp with hourly_leave_balance := emp.hourly_leave_balance - hours },
       { req with status := "approved", approved_by := some "Admin (Web)" }, .approved⟩
  else
    ⟨emp, { req with status := "approved", approved_by := some "Admin (Web)" }, .approved⟩

/-- The `admin_approve_` branch of `global_admin_handler` in `bot.py` (the
`admin_approve_` branch of `button_handler` is line-for-line the same logic).
Guard: only `req.status == 'pending'` is checked, the else-branch answers
"request missing or already processed".  Daily quantity comes from the inline
loop with no holiday lookup; the hourly branch reads both time columns (a
missing time raises in `datetime.combine` and the surrounding `except` rolls
the session back, leaving every row unchanged); no `approved_by` is written. -/
def bot_admin_approve (emp : Employee) (req : LeaveRequest) : ApproveResult :=
  if req.status ≠ "pending" then ⟨emp, req, .alreadyProcessed⟩
  else if req.leave_type = "يومية" then
    let days : ℚ := (bot_global_days req.start_date req.end_date : ℚ)
    if emp.daily_leave_balance < days then ⟨emp, req, .insufficientBalance⟩
    else
      ⟨{ emp with daily_leave_balance := emp.daily_leave_balance - days },
       { req with status := "approved" }, .approved⟩
  else if req.leave_type = "بالساعة" then
    match req.start_time, req.end_time with
    | some s, some e =>
      let hours := bot_hours s e
      if emp.hourly_leave_balance < hours then ⟨emp, req, .insufficientBalance⟩
      else
        ⟨{ emp with hourly_leave_balance := emp.hourly_leave_balance - hours },
         { req with status := "approved" }, .approved⟩
    | _, _ => ⟨emp, req, .errorRolledBack⟩
  else
    ⟨emp, { req with status := "approved" }, .approved⟩

/-- Which duplicated approve site handles an operation. -/
inductive Site
  | web
  | bot
deriving DecidableEq, Repr

/-- One approve invocation: the holiday table at that moment, the request row
operated on, and the front-end used. -/
structure ApproveOp where
  holidays : Finset Nat
  req : LeaveRequest
  site : Site

/-- Dispatch an approve invocation to its call site. -/
def approveOn (op : ApproveOp) (emp : Employee) : ApproveResult :=
  match op.site with
  | .web => web_approve op.holidays emp op.req
  | .bot => bot_admin_approve emp op.req

/-- Run a sequence of approve invocations against one employee's row,
committing each post-state. -/
def applyApproves (emp : Employee) : List ApproveOp → Employee
  | [] => emp
  | op :: rest => applyApproves (approveOn op emp).emp rest

/-- Outcome of the replacement-response handler. -/
inductive RepOutcome
  | notFound
  | acceptedOk
  | rejectedOk
deriving DecidableEq, Repr

/-- Post-state of `replacement_response_handler`: rows plus which notifications
were dispatched. -/
structure RepResult where
  emp : Employee
  req : Option LeaveRequest
  outcome : RepOutcome
  requesterNotified : Bool
  managersNotified : Bool
deriving DecidableEq, Repr

/-- `replacement_response_handler` in `bot.py`.  The only guard is row
existence (`if not leave_request`).  Accept: set `replacement_approval_status`
to `accepted`, message the requester, then run the new-request manager fan-out.
Reject: set `replacement_approval_status` to `rejected` AND `status` to
`rejected`, message the requester only.  The owning employee's row is never
touched. -/
def replacement_response (emp : Employee) (req : Option LeaveRequest)
    (accept : Bool) : RepResult :=
  match req with
  | none => ⟨emp, none, .notFound, false, false⟩
  | some r =>
    if accept then
      ⟨emp, some { r with replacement_approval_status := "accepted" },
       .acceptedOk, true, true⟩
    else
      ⟨emp, some { r with replacement_approval_status := "rejected",
                          status := "rejected" },
       .rejectedOk, true, false⟩

/-- Per-employee body of `renew_monthly_leave_balance` in `scheduler.py`:
`balance += monthly quota` on both columns. -/
def grant_monthly_quota (emp : Employee) : Employee :=
  { emp with
    daily_leave_balance := emp.daily_leave_balance + emp.monthly_daily_leave_quota,
    hourly_leave_balance := emp.hourly_leave_balance + emp.monthly_hourly_leave_quota }

/-- `renew_monthly_leave_balance` over the employee table: the query filters
`status == 'approved'` and grants each such row its quotas. -/
def renew_monthly_leave_balance (emps : List Employee) : List Employee :=
  emps.map fun e => if e.status = "approved" then grant_monthly_quota e else e

/-- The `admin_review_leaves` query filter of `button_handler` in `bot.py`:
`status == 'pending'` and replacement status `accepted` or `not_required`. -/
def admin_review_visible (r : LeaveRequest) : Bool :=
  r.status == "pending" &&
    (r.replacement_approval_status == "accepted" ||
     r.replacement_approval_status == "not_required")

/-- The web console `index` listing in `app.py`: every request row, no filter
(only re-ordered by id). -/
def web_index_list (reqs : List LeaveRequest) : List LeaveRequest := reqs

/-- The end-time validation of `leave_end_time_handler` in `bot.py`: the input
is re-prompted (rejected) when `end_time <= start_time`. -/
def bot_end_time_accepted (start_time end_time : Nat) : Bool :=
  !(end_time ≤ start_time)

/-- `approve_user` in `app.py` (web console): a pending employee is switched to
`approved` and both balances are set to the monthly quotas. -/
def approve_user_web (u : Employee) : Employee :=
  if u.status = "pending" then
    { u with status := "approved",
             daily_leave_balance := u.monthly_daily_leave_quota,
             hourly_leave_balance := u.monthly_hourly_leave_quota }
  else u

/-- The `approve_user_` branch of `global_admin_handler` in `bot.py`: a pending
employee is switched to `approved`; no balance column is written. -/
def approve_user_bot (u : Employee) : Employee :=
  if u.status = "pending" then { u with status := "approved" } else u

/-- Outcome of the admin direct-entry operation. -/
inductive AdminAddOutcome
  | insufficientBalance
  | created
deriving DecidableEq, Repr

/-- Post-state of `admin_add_leave`. -/
structure AdminAddResult where
  emp : Employee
  newRequest : Option LeaveRequest
  outcome : AdminAddOutcome
deriving DecidableEq, Repr

/-- `admin_add_leave` in `app.py` (POST branch): picks daily/hourly on the
leave_type string (anything not `يومية` takes the hourly branch, as the
source's `else`), computes the quantity, applies the balance check unless
`ignore_balance` is set, deducts, and creates the request already `approved`
with replacement status `not_required`.  No time-order validation exists on
the hourly path. -/
def admin_add_leave (holidays : Finset Nat) (emp : Employee) (employee_id : Nat)
    (leave_type : String) (start_date end_date : Nat)
    (start_time end_time : Option Nat) (reason : String)
    (ignore_balance : Bool) : AdminAddResult :=
  if leave_type = "يومية" then
    let days : ℚ := (calculate_leave_days holidays start_date end_date : ℚ)
    if ¬ignore_balance ∧ emp.daily_leave_balance < days then
      ⟨emp, none, .insufficientBalance⟩
    else
      ⟨{ emp with daily_leave_balance := emp.daily_leave_balance - days },
       some ⟨employee_id, leave_type, start_date, end_date, none, none,
             reason ++ " [تمت الإضافة بواسطة الإدارة]", "approved", none,
             "not_required", none⟩, .created⟩
  else
    let hours := calculate_leave_hours start_time end_time
    if ¬ignore_balance ∧ emp.hourly_leave_balance < hours then
      ⟨emp, none, .insufficientBalance⟩
    else
      ⟨{ emp with hourly_leave_balance := emp.hourly_leave_balance - hours },
       some ⟨employee_id, leave_type, start_date, start_date, start_time, end_time,
             reason ++ " [تمت الإضافة بواسطة الإدارة]", "approved", none,
             "not_required", none⟩, .created⟩

/-! ### Concrete sample rows (used to instantiate theorems) -/

/-- An approved employee with balances 2 days / 4 hours and the default
quotas. -/
def sampleEmp : Employee :=
  ⟨1001, "موظف", some "قسم", false, "approved", 2, 4, 2, 4⟩

/-- A pending daily request for Monday 2024-01-01 whose nominated replacement
has not answered yet (`replacement_approval_status = "pending"`). -/
def reqC3 : LeaveRequest :=
  ⟨1, "يومية", 738886, 738886, none, none, "سبب", "pending", some 7, "pending", none⟩

/-- An already-approved daily request (a terminal state). -/
def reqDone : LeaveRequest :=
  ⟨1, "يومية", 738886, 738886, none, none, "سبب", "approved", none, "not_required",
   some "Admin (Web)"⟩

/-- A pending request whose replacement already accepted. -/
def reqC8 : LeaveRequest :=
  ⟨1, "يومية", 738886, 738887, none, none, "سبب", "pending", some 7, "accepted", none⟩

/-- An approved employee with hour balance 0 (and day balance 2). -/
def empC9 : Employee := ⟨1003, "بديل", none, false, "approved", 2, 0, 2, 4⟩

/-- An approved employee with balance (0.5 days, 1 hour) and quota (2, 4). -/
def empC6 : Employee := ⟨1002, "حصة", none, false, "approved", 1/2, 1, 2, 4⟩

/-- A freshly registered employee: pending, zero balances, default quotas. -/
def pendingEmp : Employee := ⟨500, "جديد", none, false, "pending", 0, 0, 2, 4⟩

/-! ### Day-count arithmetic -/

/-- The unrolled `calculate_leave_days` loop sums the working-day indicator
over the iteration offsets. -/
theorem countDaysFrom_eq_sum (h : Finset Nat) :
    ∀ (n s : Nat), countDaysFrom h s n =
      ∑ i ∈ Finset.range n, (if isWorkingDay h (s + i) then 1 else 0)
  | 0, s => by simp [countDaysFrom]
  | n + 1, s => by
      rw [countDaysFrom, countDaysFrom_eq_sum h n (s + 1), Finset.sum_range_succ']
      simp [Nat.add_comm, Nat.add_left_comm, Nat.add_assoc]

/-- `calculate_leave_days` counts exactly the working days of the inclusive
range (weekday not Friday/Saturday, date not a holiday). -/
theorem calculate_leave_days_eq_card (h : Finset Nat) (s e : Nat) :
    calculate_leave_days h s e =
      ((Finset.Icc s e).filter fun d => isWorkingDay h d = true).card := by
  rw [calculate_leave_days, countDaysFrom_eq_sum, Finset.card_filter,
    ← Nat.Ico_succ_right, Finset.sum_Ico_eq_sum_range]

/-- Single-day range: one working day counts 1, anything else 0. -/
theorem calculate_leave_days_self (h : Finset Nat) (d : Nat) :
    calculate_leave_days h d d = if isWorkingDay h d then 1 else 0 := by
  simp [calculate_leave_days, countDaysFrom]

/-- The two textually duplicated bot loops agree. -/
theorem botButtonDaysFrom_eq_global (s n : Nat) :
    botButtonDaysFrom s n = botGlobalDaysFrom s n := by
  induction n generalizing s with
  | zero => rfl
  | succ n ih => rw [botButtonDaysFrom, botGlobalDaysFrom, ih]

/-- With an empty holiday table the web loop body equals the bot loop body. -/
theorem isWorkingDay_empty (d : Nat) : isWorkingDay ∅ d = botWorkday d := by
  simp [isWorkingDay, botWorkday]

/-- The bot loop is the web loop specialised to no holidays. -/
theorem botButtonDaysFrom_eq_countDaysFrom (s n : Nat) :
    botButtonDaysFrom s n = countDaysFrom ∅ s n := by
  induction n generalizing s with
  | zero => rfl
  | succ n ih => rw [botButtonDaysFrom, countDaysFrom, ih, isWorkingDay_empty]

/-- The web loop body implies the bot loop body. -/
theorem isWorkingDay_le_botWorkday (h : Finset Nat) (d : Nat)
    (hw : isWorkingDay h d = true) : botWorkday d = true := by
  simp only [isWorkingDay, Bool.and_eq_true] at hw
  exact hw.1

/-- Excluding holidays can only lower the day count. -/
theorem countDaysFrom_le_botButton (h : Finset Nat) :
    ∀ (n s : Nat), countDaysFrom h s n ≤ botButtonDaysFrom s n
  | 0, _ => Nat.le_refl _
  | n + 1, s => by
      rw [countDaysFrom, botButtonDaysFrom]
      refine Nat.add_le_add ?_ (countDaysFrom_le_botButton h n (s + 1))
      by_cases hw : isWorkingDay h s = true
      · rw [hw, isWorkingDay_le_botWorkday h s hw]
      · simp [hw]

/-- The loop condition of `calculate_leave_days`, read as the spec phrases the
working-day test: weekday neither Friday nor Saturday, date not a holiday. -/
theorem isWorkingDay_iff (h : Finset Nat) (d : Nat) :
    isWorkingDay h d = true ↔ (pyWeekday d ≠ 4 ∧ pyWeekday d ≠ 5 ∧ d ∉ h) := by
  simp [isWorkingDay, not_or, and_assoc]

/-- `calculate_leave_days` counts the dates of the inclusive range passing the
spec's working-day test. -/
theorem calculate_leave_days_eq_spec_card (h : Finset Nat) (s e : Nat) :
    calculate_leave_days h s e =
      ((Finset.Icc s e).filter
        fun d => pyWeekday d ≠ 4 ∧ pyWeekday d ≠ 5 ∧ d ∉ h).card := by
  rw [calculate_leave_days_eq_card]
  congr 1
  exact Finset.filter_congr fun x _ => by rw [isWorkingDay_iff]

/-! ### Approve operations: invariants and branch facts -/

/-- Both balance columns stay non-negative across one web approve call. -/
theorem web_approve_nonneg (holidays : Finset Nat) (emp : Employee) (req : LeaveRequest)
    (hd : 0 ≤ emp.daily_leave_balance) (hh : 0 ≤ emp.hourly_leave_balance) :
    0 ≤ (web_approve holidays emp req).emp.daily_leave_balance ∧
    0 ≤ (web_approve holidays emp req).emp.hourly_leave_balance := by
  unfold web_approve
  dsimp only
  repeat' split
  all_goals
    first
    | exact ⟨hd, hh⟩
    | (rename_i hlt; exact ⟨sub_nonneg.mpr (not_lt.mp hlt), hh⟩)
    | (rename_i hlt; exact ⟨hd, sub_nonneg.mpr (not_lt.mp hlt)⟩)

/-- Both balance columns stay non-negative across one bot approve call. -/
theorem bot_approve_nonneg (emp : Employee) (req : LeaveRequest)
    (hd : 0 ≤ emp.daily_leave_balance) (hh : 0 ≤ emp.hourly_leave_balance) :
    0 ≤ (bot_admin_approve emp req).emp.daily_leave_balance ∧
    0 ≤ (bot_admin_approve emp req).emp.hourly_leave_balance := by
  unfold bot_admin_approve
  dsimp only
  repeat' split
  all_goals
    first
    | exact ⟨hd, hh⟩
    | (rename_i hlt; exact ⟨sub_nonneg.mpr (not_lt.mp hlt), hh⟩)
    | (rename_i hlt; exact ⟨hd, sub_nonneg.mpr (not_lt.mp hlt)⟩)

/-- Dispatching to either site preserves non-negative balances. -/
theorem approveOn_nonneg (op : ApproveOp) (emp : Employee)
    (hd : 0 ≤ emp.daily_leave_balance) (hh : 0 ≤ emp.hourly_leave_balance) :
    0 ≤ (approveOn op emp).emp.daily_leave_balance ∧
    0 ≤ (approveOn op emp).emp.hourly_leave_balance := by
  cases hs : op.site with
  | web => simpa [approveOn, hs] using web_approve_nonneg op.holidays emp op.req hd hh
  | bot => simpa [approveOn, hs] using bot_approve_nonneg emp op.req hd hh

/-- Any sequence of approve calls preserves non-negative balances. -/
theorem applyApproves_nonneg (ops : List ApproveOp) (emp : Employee)
    (hd : 0 ≤ emp.daily_leave_balance) (hh : 0 ≤ emp.hourly_leave_balance) :
    0 ≤ (applyApproves emp ops).daily_leave_balance ∧
    0 ≤ (applyApproves emp ops).hourly_leave_balance := by
  induction ops generalizing emp with
  | nil => exact ⟨hd, hh⟩
  | cons op rest ih =>
    have h := approveOn_nonneg op emp hd hh
    exact ih (approveOn op emp).emp h.1 h.2

/-- Successful daily web approve: the new balance is the old one minus the
computed day quantity, nothing else (exact subtraction, no clamping). -/
theorem web_approve_daily_exact (holidays : Finset Nat) (emp : Employee)
    (req : LeaveRequest) (hp : req.status = "pending") (ht : req.leave_type = "يومية")
    (hb : ¬(emp.daily_leave_balance <
        (calculate_leave_days holidays req.start_date req.end_date : ℚ))) :
    (web_approve holidays emp req).emp.daily_leave_balance =
      emp.daily_leave_balance -
        (calculate_leave_days holidays req.start_date req.end_date : ℚ) ∧
    (web_approve holidays emp req).outcome = ApproveOutcome.approved := by
  simp [web_approve, hp, ht, hb]

/-- Successful daily bot approve: exact subtraction of the bot's day
quantity. -/
theorem bot_approve_daily_exact (emp : Employee) (req : LeaveRequest)
    (hp : req.status = "pending") (ht : req.leave_type = "يومية")
    (hb : ¬(emp.daily_leave_balance <
        (bot_global_days req.start_date req.end_date : ℚ))) :
    (bot_admin_approve emp req).emp.daily_leave_balance =
      emp.daily_leave_balance - (bot_global_days req.start_date req.end_date : ℚ) ∧
    (bot_admin_approve emp req).outcome = ApproveOutcome.approved := by
  simp [bot_admin_approve, hp, ht, hb]

/-- A web approve that reports success has written status `approved`. -/
theorem approved_sets_status_web (holidays : Finset Nat) (emp : Employee)
    (req : LeaveRequest)
    (h : (web_approve holidays emp req).outcome = ApproveOutcome.approved) :
    (web_approve holidays emp req).req.status = "approved" := by
  by_cases h1 : req.status ≠ "pending"
  · simp [web_approve, h1] at h
  · by_cases h2 : req.leave_type = "يومية"
    · by_cases h3 : emp.daily_leave_balance <
          (calculate_leave_days holidays req.start_date req.end_date : ℚ)
      · simp [web_approve, h1, h2, h3] at h
      · simp [web_approve, h1, h2, h3]
    · by_cases h4 : req.leave_type = "بالساعة"
      · by_cases h5 : emp.hourly_leave_balance <
            calculate_leave_hours req.start_time req.end_time
        · simp [web_approve, h1, h2, h4, h5] at h
        · simp [web_approve, h1, h2, h4, h5]
      · simp [web_approve, h1, h2, h4]

/-- A bot approve that reports success has written status `approved`. -/
theorem approved_sets_status_bot (emp : Employee) (req : LeaveRequest)
    (h : (bot_admin_approve emp req).outcome = ApproveOutcome.approved) :
    (bot_admin_approve emp req).req.status = "approved" := by
  by_cases h1 : req.status ≠ "pending"
  · simp [bot_admin_approve, h1] at h
  · by_cases h2 : req.leave_type = "يومية"
    · by_cases h3 : emp.daily_leave_balance <
          (bot_global_days req.start_date req.end_date : ℚ)
      · simp [bot_admin_approve, h1, h2, h3] at h
      · simp [bot_admin_approve, h1, h2, h3]
    · by_cases h4 : req.leave_type = "بالساعة"
      · rcases hs : req.start_time with _ | s <;> rcases he : req.end_time with _ | e
        · simp [bot_admin_approve, h1, h2, h4, hs, he] at h
        · simp [bot_admin_approve, h1, h2, h4, hs, he] at h
        · simp [bot_admin_approve, h1, h2, h4, hs, he] at h
        · by_cases h5 : emp.hourly_leave_balance < bot_hours s e
          · simp [bot_admin_approve, h1, h2, h4, hs, he, h5] at h
          · simp [bot_admin_approve, h1, h2, h4, hs, he, h5]
      · simp [bot_admin_approve, h1, h2, h4]

/-! ### Concrete evaluation facts -/

/-- 2024-01-01 alone, no holidays: one working day. -/
theorem days_single_no_holiday : calculate_leave_days ∅ 738886 738886 = 1 := by decide

/-- 2024-01-01 alone for the bot loop: one working day. -/
theorem bot_days_single : bot_global_days 738886 738886 = 1 := by decide

/-- The two Arabic leave-kind literals differ. -/
theorem hourly_ne_daily_str : ("بالساعة" = "يومية") = False := by decide

/-- 13:00 → 09:00 evaluates to minus four hours. -/
theorem hours_neg_example : calculate_leave_hours (some 780) (some 540) = -4 := by
  norm_num [calculate_leave_hours]

/-! ### Claim theorems -/

/-- C1: starting from non-negative committed balances, after any sequence of
approve operations (web or bot site, any holiday tables) both
`daily_leave_balance` and `hourly_leave_balance` are still non-negative — and
the mechanism is the pre-deduction check, not clamping: a successful daily
approve stores exactly `old balance - computed quantity` on either site. -/
theorem C1_balance_never_negative (emp : Employee) (ops : List ApproveOp)
    (hd : 0 ≤ emp.daily_leave_balance) (hh : 0 ≤ emp.hourly_leave_balance) :
    (0 ≤ (applyApproves emp ops).daily_leave_balance ∧
     0 ≤ (applyApproves emp ops).hourly_leave_balance) ∧
    (∀ (holidays : Finset Nat) (req : LeaveRequest),
      req.status = "pending" → req.leave_type = "يومية" →
      ¬(emp.daily_leave_balance <
          (calculate_leave_days holidays req.start_date req.end_date : ℚ)) →
      (web_approve holidays emp req).emp.daily_leave_balance =
        emp.daily_leave_balance -
          (calculate_leave_days holidays req.start_date req.end_date : ℚ)) ∧
    (∀ req : LeaveRequest,
      req.status = "pending" → req.leave_type = "يومية" →
      ¬(emp.daily_leave_balance < (bot_global_days req.start_date req.end_date : ℚ)) →
      (bot_admin_approve emp req).emp.daily_leave_balance =
        emp.daily_leave_balance - (bot_global_days req.start_date req.end_date : ℚ)) :=
  ⟨applyApproves_nonneg ops emp hd hh,
   fun holidays req hp ht hb => (web_approve_daily_exact holidays emp req hp ht hb).1,
   fun req hp ht hb => (bot_approve_daily_exact emp req hp ht hb).1⟩

/-- Witness for C1 at the sample employee and a one-element approve
sequence. -/
theorem C1_balance_never_negative_witness :
    (0 ≤ sampleEmp.daily_leave_balance ∧ 0 ≤ sampleEmp.hourly_leave_balance) ∧
    ((0 ≤ (applyApproves sampleEmp [⟨∅, reqC3, Site.web⟩]).daily_leave_balance ∧
      0 ≤ (applyApproves sampleEmp [⟨∅, reqC3, Site.web⟩]).hourly_leave_balance) ∧
     (∀ (holidays : Finset Nat) (req : LeaveRequest),
       req.status = "pending" → req.leave_type = "يومية" →
       ¬(sampleEmp.daily_leave_balance <
           (calculate_leave_days holidays req.start_date req.end_date : ℚ)) →
       (web_approve holidays sampleEmp req).emp.daily_leave_balance =
         sampleEmp.daily_leave_balance -
           (calculate_leave_days holidays req.start_date req.end_date : ℚ)) ∧
     (∀ req : LeaveRequest,
       req.status = "pending" → req.leave_type = "يومية" →
       ¬(sampleEmp.daily_leave_balance <
           (bot_global_days req.start_date req.end_date : ℚ)) →
       (bot_admin_approve sampleEmp req).emp.daily_leave_balance =
         sampleEmp.daily_leave_balance -
           (bot_global_days req.start_date req.end_date : ℚ))) :=
  ⟨⟨by norm_num [sampleEmp], by norm_num [sampleEmp]⟩,
   C1_balance_never_negative sampleEmp [⟨∅, reqC3, Site.web⟩]
     (by norm_num [sampleEmp]) (by norm_num [sampleEmp])⟩

/-- C2: on a request that is no longer `pending` (already approved or
rejected), both the web and the bot approve sites change nothing and signal
the already-processed outcome; and any approve call that reports success has
moved the request into `approved`, so the deduction happens exactly once, at
that transition. -/
theorem C2_approve_idempotent (holidays : Finset Nat) (emp : Employee)
    (req : LeaveRequest) (h : req.status ≠ "pending") :
    web_approve holidays emp req = ⟨emp, req, ApproveOutcome.alreadyProcessed⟩ ∧
    bot_admin_approve emp req = ⟨emp, req, ApproveOutcome.alreadyProcessed⟩ ∧
    (∀ (emp1 : Employee) (req1 : LeaveRequest),
      (web_approve holidays emp1 req1).outcome = ApproveOutcome.approved →
      (web_approve holidays emp1 req1).req.status = "approved") ∧
    (∀ (emp1 : Employee) (req1 : LeaveRequest),
      (bot_admin_approve emp1 req1).outcome = ApproveOutcome.approved →
      (bot_admin_approve emp1 req1).req.status = "approved") :=
  ⟨by simp [web_approve, h], by simp [bot_admin_approve, h],
   fun emp1 req1 => approved_sets_status_web holidays emp1 req1,
   fun emp1 req1 => approved_sets_status_bot emp1 req1⟩

/-- Witness for C2 at an already-approved request. -/
theorem C2_approve_idempotent_witness :
    reqDone.status ≠ "pending" ∧
    (web_approve ∅ sampleEmp reqDone = ⟨sampleEmp, reqDone, ApproveOutcome.alreadyProcessed⟩ ∧
     bot_admin_approve sampleEmp reqDone = ⟨sampleEmp, reqDone, ApproveOutcome.alreadyProcessed⟩ ∧
     (∀ (emp1 : Employee) (req1 : LeaveRequest),
       (web_approve ∅ emp1 req1).outcome = ApproveOutcome.approved →
       (web_approve ∅ emp1 req1).req.status = "approved") ∧
     (∀ (emp1 : Employee) (req1 : LeaveRequest),
       (bot_admin_approve emp1 req1).outcome = ApproveOutcome.approved →
       (bot_admin_approve emp1 req1).req.status = "approved")) :=
  ⟨by decide, C2_approve_idempotent ∅ sampleEmp reqDone (by decide)⟩

/-- C5: `calculate_leave_days` counts exactly the dates of the inclusive range
whose weekday is neither Friday nor Saturday and that are not holidays; a
single-day range yields 1 on a working day and 0 otherwise; and the spec's
example 2024-01-01 .. 2024-01-07 with no holidays yields 5. -/
theorem C5_day_count (holidays : Finset Nat) (s e : Nat) :
    calculate_leave_days holidays s e =
      ((Finset.Icc s e).filter
        fun d => pyWeekday d ≠ 4 ∧ pyWeekday d ≠ 5 ∧ d ∉ holidays).card ∧
    (∀ d : Nat, calculate_leave_days holidays d d =
      if isWorkingDay holidays d then 1 else 0) ∧
    calculate_leave_days ∅ 738886 738892 = 5 :=
  ⟨calculate_leave_days_eq_spec_card holidays s e,
   fun d => calculate_leave_days_self holidays d,
   by decide⟩

/-- C6: the monthly grant adds exactly the monthly quotas to the current
balances; two grants in a row add them twice; on quota (2, 4) and balance
(0.5, 1) one grant gives (2.5, 5); the scheduler applies the grant to
approved employees. -/
theorem C6_monthly_grant (emp : Employee) :
    (grant_monthly_quota emp).daily_leave_balance =
      emp.daily_leave_balance + emp.monthly_daily_leave_quota ∧
    (grant_monthly_quota emp).hourly_leave_balance =
      emp.hourly_leave_balance + emp.monthly_hourly_leave_quota ∧
    (grant_monthly_quota (grant_monthly_quota emp)).daily_leave_balance =
      emp.daily_leave_balance + 2 * emp.monthly_daily_leave_quota ∧
    (grant_monthly_quota (grant_monthly_quota emp)).hourly_leave_balance =
      emp.hourly_leave_balance + 2 * emp.monthly_hourly_leave_quota ∧
    (grant_monthly_quota empC6).daily_leave_balance = 5 / 2 ∧
    (grant_monthly_quota empC6).hourly_leave_balance = 5 ∧
    renew_monthly_leave_balance [empC6] = [grant_monthly_quota empC6] :=
  ⟨rfl, rfl, by simp [grant_monthly_quota]; ring, by simp [grant_monthly_quota]; ring,
   by norm_num [grant_monthly_quota, empC6], by norm_num [grant_monthly_quota, empC6],
   by simp [renew_monthly_leave_balance, empC6]⟩

/-- C7: answering a replacement request with reject sets
`replacement_approval_status` to `rejected` AND forces `status` to `rejected`,
whatever the request's prior state, notifies the requester only (no manager
fan-out), and leaves the owning employee's row — both balances included —
untouched. -/
theorem C7_replacement_reject (emp : Employee) (req : LeaveRequest) :
    replacement_response emp (some req) false =
      ⟨emp,
       some { req with replacement_approval_status := "rejected", status := "rejected" },
       RepOutcome.rejectedOk, true, false⟩ ∧
    (replacement_response emp (some req) false).emp.daily_leave_balance =
      emp.daily_leave_balance ∧
    (replacement_response emp (some req) false).emp.hourly_leave_balance =
      emp.hourly_leave_balance :=
  ⟨rfl, rfl, rfl⟩

/-- C3 fails on the code: a pending daily request whose replacement has not
answered (replacement status still `pending`) is listed by the web console
index, and approve succeeds on it at both sites — the web site deducts the
balance (2 → 1) even though the replacement never accepted. -/
theorem C3_replacement_gating_counterexample :
    reqC3.status = "pending" ∧
    reqC3.replacement_approval_status = "pending" ∧
    reqC3 ∈ web_index_list [reqC3] ∧
    (web_approve ∅ sampleEmp reqC3).outcome = ApproveOutcome.approved ∧
    (web_approve ∅ sampleEmp reqC3).emp.daily_leave_balance = 1 ∧
    (bot_admin_approve sampleEmp reqC3).outcome = ApproveOutcome.approved :=
  ⟨rfl, rfl, by simp [web_index_list],
   by norm_num [web_approve, sampleEmp, reqC3, days_single_no_holiday],
   by norm_num [web_approve, sampleEmp, reqC3, days_single_no_holiday],
   by norm_num [bot_admin_approve, sampleEmp, reqC3, bot_days_single]⟩

/-- C3 amended: while the replacement answer is pending the request is
excluded from the bot's manager review listing, but the web console index
lists every request, and the approve operation on both front-ends validates
only `status == "pending"` (plus the balance check), so it succeeds
regardless of the replacement status. -/
theorem C3_replacement_gating_amended (holidays : Finset Nat) (emp : Employee)
    (req : LeaveRequest) (hp : req.status = "pending") :
    (req.replacement_approval_status = "pending" → admin_review_visible req = false) ∧
    (∀ reqs : List LeaveRequest, req ∈ reqs → req ∈ web_index_list reqs) ∧
    (req.leave_type = "يومية" →
      ¬(emp.daily_leave_balance <
          (calculate_leave_days holidays req.start_date req.end_date : ℚ)) →
      (web_approve holidays emp req).outcome = ApproveOutcome.approved) ∧
    (req.leave_type = "يومية" →
      ¬(emp.daily_leave_balance < (bot_global_days req.start_date req.end_date : ℚ)) →
      (bot_admin_approve emp req).outcome = ApproveOutcome.approved) := by
  refine ⟨?_, ?_, ?_, ?_⟩
  · intro hrep
    unfold admin_review_visible
    rw [hrep]
    simp
  · intro reqs hmem
    simpa [web_index_list] using hmem
  · exact fun ht hb => (web_approve_daily_exact holidays emp req hp ht hb).2
  · exact fun ht hb => (bot_approve_daily_exact emp req hp ht hb).2

/-- Witness for the amended C3 at the sample rows. -/
theorem C3_replacement_gating_amended_witness :
    reqC3.status = "pending" ∧
    ((reqC3.replacement_approval_status = "pending" →
        admin_review_visible reqC3 = false) ∧
     (∀ reqs : List LeaveRequest, reqC3 ∈ reqs → reqC3 ∈ web_index_list reqs) ∧
     (reqC3.leave_type = "يومية" →
       ¬(sampleEmp.daily_leave_balance <
           (calculate_leave_days ∅ reqC3.start_date reqC3.end_date : ℚ)) →
       (web_approve ∅ sampleEmp reqC3).outcome = ApproveOutcome.approved) ∧
     (reqC3.leave_type = "يومية" →
       ¬(sampleEmp.daily_leave_balance <
           (bot_global_days reqC3.start_date reqC3.end_date : ℚ)) →
       (bot_admin_approve sampleEmp reqC3).outcome = ApproveOutcome.approved)) :=
  ⟨rfl, C3_replacement_gating_amended ∅ sampleEmp reqC3 rfl⟩

/-- C4 fails on the code: with 2024-01-01 (a Monday) registered as a holiday,
the single-day request over that date is charged 0 days by the web formula
but 1 day by each of the two bot copies — the three deduction call sites do
not agree for every holiday set. -/
theorem C4_call_sites_counterexample :
    calculate_leave_days {738886} 738886 738886 = 0 ∧
    bot_button_days 738886 738886 = 1 ∧
    bot_global_days 738886 738886 = 1 := by
  refine ⟨by decide, by decide, by decide⟩

/-- C4 amended: the two bot copies compute identical day quantities, and they
equal the web formula only with an empty holiday table; in general the web
quantity (which skips holidays) is at most the bot quantity (which does not).
The hourly quantity is the same formula at all sites. -/
theorem C4_call_sites_amended (s e : Nat) (holidays : Finset Nat) :
    bot_button_days s e = bot_global_days s e ∧
    bot_button_days s e = calculate_leave_days ∅ s e ∧
    calculate_leave_days holidays s e ≤ bot_button_days s e ∧
    bot_hours s e = calculate_leave_hours (some s) (some e) :=
  ⟨botButtonDaysFrom_eq_global s (e + 1 - s),
   botButtonDaysFrom_eq_countDaysFrom s (e + 1 - s),
   countDaysFrom_le_botButton holidays (e + 1 - s) s,
   rfl⟩

/-- C8 fails on the code: on a request whose replacement already accepted, a
further accept call is not answered with a not-found/already-processed
outcome — it reports success again and re-dispatches both the requester
message and the manager fan-out. -/
theorem C8_idempotent_guard_counterexample :
    reqC8.replacement_approval_status = "accepted" ∧
    (replacement_response sampleEmp (some reqC8) true).outcome = RepOutcome.acceptedOk ∧
    (replacement_response sampleEmp (some reqC8) true).outcome ≠ RepOutcome.notFound ∧
    (replacement_response sampleEmp (some reqC8) true).requesterNotified = true ∧
    (replacement_response sampleEmp (some reqC8) true).managersNotified = true :=
  ⟨rfl, rfl, by decide, rfl, rfl⟩

/-- C8 amended: the handler's only guard is row existence — a call on a
missing request returns not-found with no effects; a call on any existing
request re-runs the accept/reject branch regardless of how it was previously
resolved, re-writing the fields and re-dispatching the notifications (the
accept branch includes the manager fan-out). -/
theorem C8_idempotent_guard_amended (emp : Employee) (req : LeaveRequest)
    (accept : Bool) :
    replacement_response emp none accept =
      ⟨emp, none, RepOutcome.notFound, false, false⟩ ∧
    (replacement_response emp (some req) true).outcome = RepOutcome.acceptedOk ∧
    (replacement_response emp (some req) true).managersNotified = true ∧
    (replacement_response emp (some req) true).req =
      some { req with replacement_approval_status := "accepted" } ∧
    (replacement_response emp (some req) false).outcome = RepOutcome.rejectedOk ∧
    (replacement_response emp (some req) false).req =
      some { req with replacement_approval_status := "rejected", status := "rejected" } :=
  ⟨rfl, rfl, rfl, rfl, rfl, rfl⟩

/-- C9 fails on the code in its "never computed" part: the bot dialogue does
reject end ≤ start, but the admin direct-entry operation has no such check —
on 13:00 → 09:00 it computes Hour-count = −4, passes the balance check (0 is
not < −4), creates the approved request, and the deduction raises the balance
from 0 to 4. -/
theorem C9_hour_count_counterexample :
    empC9.hourly_leave_balance = 0 ∧
    calculate_leave_hours (some 780) (some 540) = -4 ∧
    bot_end_time_accepted 780 540 = false ∧
    (admin_add_leave ∅ empC9 3 "بالساعة" 738886 738886 (some 780) (some 540)
        "سبب" false).outcome = AdminAddOutcome.created ∧
    (admin_add_leave ∅ empC9 3 "بالساعة" 738886 738886 (some 780) (some 540)
        "سبب" false).emp.hourly_leave_balance = 4 :=
  ⟨rfl, hours_neg_example, by decide,
   by norm_num [admin_add_leave, empC9, hours_neg_example, hourly_ne_daily_str],
   by norm_num [admin_add_leave, empC9, hours_neg_example, hourly_ne_daily_str]⟩

/-- C9 amended: Hour-count is the pure time-of-day difference in hours
(fractional allowed, 09:00 → 13:30 gives 4.5); the bot's submission dialogue
accepts an end time only when it is strictly after the start time; but the
admin direct-entry operation performs no such validation and computes
Hour-count on end ≤ start anyway, succeeding and subtracting the non-positive
quantity. -/
theorem C9_hour_count_amended (s e : Nat) :
    calculate_leave_hours (some s) (some e) = ((e : ℚ) - (s : ℚ)) * 60 / 3600 ∧
    calculate_leave_hours (some 540) (some 810) = 9 / 2 ∧
    (bot_end_time_accepted s e = true ↔ s < e) ∧
    (∀ (emp : Employee) (eid d : Nat) (r : String), e ≤ s →
      0 ≤ emp.hourly_leave_balance →
      (admin_add_leave ∅ emp eid "بالساعة" d d (some s) (some e) r false).outcome
        = AdminAddOutcome.created ∧
      (admin_add_leave ∅ emp eid "بالساعة" d d (some s) (some e) r
          false).emp.hourly_leave_balance
        = emp.hourly_leave_balance - calculate_leave_hours (some s) (some e)) := by
  refine ⟨rfl, by norm_num [calculate_leave_hours], ?_, ?_⟩
  · simp [bot_end_time_accepted, not_le]
  · intro emp eid d r hle hbal
    have hnp : calculate_leave_hours (some s) (some e) ≤ 0 := by
      unfold calculate_leave_hours
      have hse : (e : ℚ) ≤ (s : ℚ) := by exact_mod_cast hle
      have h60 : ((e : ℚ) - (s : ℚ)) * 60 ≤ 0 := by nlinarith
      have h36 : ((e : ℚ) - (s : ℚ)) * 60 / 3600 ≤ 0 / 3600 :=
        div_le_div_of_nonneg_right h60 (by norm_num)
      simpa using h36
    have hcond : ¬(emp.hourly_leave_balance < calculate_leave_hours (some s) (some e)) :=
      not_lt.mpr (hnp.trans hbal)
    refine ⟨?_, ?_⟩ <;> simp [admin_add_leave, hourly_ne_daily_str, hcond]

/-- Witness for the amended C9 at 13:00 → 09:00 on the zero-hour-balance
employee. -/
theorem C9_hour_count_amended_witness :
    (540 : Nat) ≤ 780 ∧ 0 ≤ empC9.hourly_leave_balance ∧
    ((admin_add_leave ∅ empC9 3 "بالساعة" 738886 738886 (some 780) (some 540)
        "سبب" false).outcome = AdminAddOutcome.created ∧
     (admin_add_leave ∅ empC9 3 "بالساعة" 738886 738886 (some 780) (some 540)
        "سبب" false).emp.hourly_leave_balance
       = empC9.hourly_leave_balance - calculate_leave_hours (some 780) (some 540)) :=
  ⟨by decide, by norm_num [empC9],
   (C9_hour_count_amended 780 540).2.2.2 empC9 3 738886 "سبب" (by decide)
     (by norm_num [empC9])⟩

/-- C10: approving a pending employee on the web console sets status
`approved` and initialises both balances to the monthly quotas, while the
bot's user-approval branch only flips the status and leaves both balances
as they were — on a freshly registered employee (balances 0, quotas 2/4)
the two front-ends produce different starting balances. -/
theorem C10_user_approval_divergence (u : Employee) (h : u.status = "pending") :
    (approve_user_web u).status = "approved" ∧
    (approve_user_web u).daily_leave_balance = u.monthly_daily_leave_quota ∧
    (approve_user_web u).hourly_leave_balance = u.monthly_hourly_leave_quota ∧
    (approve_user_bot u).status = "approved" ∧
    (approve_user_bot u).daily_leave_balance = u.daily_leave_balance ∧
    (approve_user_bot u).hourly_leave_balance = u.hourly_leave_balance ∧
    (approve_user_web pendingEmp).daily_leave_balance = 2 ∧
    (approve_user_bot pendingEmp).daily_leave_balance = 0 ∧
    (approve_user_web pendingEmp).hourly_leave_balance = 4 ∧
    (approve_user_bot pendingEmp).hourly_leave_balance = 0 := by
  refine ⟨?_, ?_, ?_, ?_, ?_, ?_, ?_, ?_, ?_, ?_⟩ <;>
    norm_num [approve_user_web, approve_user_bot, h, pendingEmp]

/-- Witness for C10 at the freshly registered pending employee. -/
theorem C10_user_approval_divergence_witness :
    pendingEmp.status = "pending" ∧
    ((approve_user_web pendingEmp).status = "approved" ∧
     (approve_user_web pendingEmp).daily_leave_balance =
       pendingEmp.monthly_daily_leave_quota ∧
     (approve_user_web pendingEmp).hourly_leave_balance =
       pendingEmp.monthly_hourly_leave_quota ∧
     (approve_user_bot pendingEmp).status = "approved" ∧
     (approve_user_bot pendingEmp).daily_leave_balance =
       pendingEmp.daily_leave_balance ∧
     (approve_user_bot pendingEmp).hourly_leave_balance =
       pendingEmp.hourly_leave_balance ∧
     (approve_user_web pendingEmp).daily_leave_balance = 2 ∧
     (approve_user_bot pendingEmp).daily_leave_balance = 0 ∧
     (approve_user_web pendingEmp).hourly_leave_balance = 4 ∧
     (approve_user_bot pendingEmp).hourly_leave_balance = 0) :=
  ⟨rfl, C10_user_approval_divergence pendingEmp rfl⟩

end LeaveBot
